import Mathlib

/-!
Shallow embedding of `ccb/ml.py` (the `tuner` class) and proofs about its
configuration-merge protocol, search executor and per-model-family methods.

Python objects are modelled as explicit state: each method takes the current
`Tuner` state and returns the state at the moment control leaves the method,
paired with `Option PyErr` (`some e` when the method raised exception `e`).
The external sklearn grid-search engine is an explicit parameter of type
`Engine`; the configuration handed to it mirrors exactly the keyword
arguments `run_gs` passes to `self.optimizer(...)` plus the `fit` data.
-/

namespace CcbML

mutual
/-- A Python value as it appears in this module: `None`, booleans, int and
float literals (floats kept as exact rationals — the module only stores and
compares them, never computes), strings and tuples.  Tuples carry a
mutually-defined list so that decidable equality can be derived. -/
inductive PyVal where
  | none
  | bool (b : Bool)
  | int (n : Int)
  | float (q : Rat)
  | str (s : String)
  | tuple (elems : PyValList)
inductive PyValList where
  | nil
  | cons (head : PyVal) (tail : PyValList)
end
deriving instance DecidableEq for PyVal
deriving instance DecidableEq for PyValList

/-- Build a `PyValList` from an ordinary list. -/
def PyValList.ofList : List PyVal → PyValList
  | [] => PyValList.nil
  | v :: vs => PyValList.cons v (PyValList.ofList vs)

/-- A Python tuple literal. -/
def PyVal.tup (elems : List PyVal) : PyVal :=
  PyVal.tuple (PyValList.ofList elems)

/-- A hyperparameter grid: a Python dict from hyperparameter name to a value
(normally a tuple of candidates), kept in insertion order. -/
abbrev Grid := List (String × PyVal)

/-- A scoring specification: a named sklearn metric string or a metric
callable (identified by name, e.g. `explained_variance_score`). -/
inductive Scoring where
  | named (s : String)
  | callable (fn : String)
deriving DecidableEq

/-- The search-strategy class stored in `self.optimizer`
(`GridSearchCV` by default; callers may substitute another). -/
inductive Optimizer where
  | gridSearchCV
  | custom (s : String)
deriving DecidableEq

/-- A cross-validation splitting strategy as constructed by this module:
`StratifiedKFold(n_splits=k)`, `KFold(n_splits=k)`, or any other
caller-supplied cv input. -/
inductive CVStrategy where
  | stratifiedKFold (n_splits : Int)
  | kFold (n_splits : Int)
  | other (v : PyVal)
deriving DecidableEq

/-- The sklearn estimator families instantiated by the module's methods. -/
inductive Family where
  | linearRegression
  | logisticRegression
  | decisionTreeClassifier
  | svc
  | svr
  | linearSVC
  | linearSVR
  | adaBoostClassifier
  | adaBoostRegressor
  | gradientBoostingClassifier
  | gradientBoostingRegressor
  | randomForestClassifier
  | randomForestRegressor
deriving DecidableEq

/-- A freshly constructed estimator: its family together with the keyword
arguments explicitly passed to the library constructor (empty when the
constructor is called with only its built-in defaults). -/
structure Estimator where
  family : Family
  ctorArgs : List (String × PyVal)
deriving DecidableEq

/-- A model as returned in the optimizer's `best_estimator_` field:
an estimator together with whether it has been fitted. -/
structure FittedModel where
  estimator : Estimator
  fitted : Bool
deriving DecidableEq

/-- A Python exception, as far as this module can raise or propagate one. -/
inductive PyErr where
  | attributeError
  | typeError
  | raised (s : String)
deriving DecidableEq

/-- The result object produced by a completed search: the fields `run_gs`
reads off the fitted optimizer object. -/
structure GSResult where
  cv_results_ : PyVal
  best_estimator_ : FittedModel
  best_score_ : PyVal
  best_params_ : Grid
  best_index_ : Int
  scorer_ : PyVal
  n_splits_ : Int
deriving DecidableEq

/-- Everything `run_gs` hands to the external engine: the estimator and the
keyword arguments of the `self.optimizer(...)` call, plus the data passed to
`fit`.  Note there is no `fit_params` field: `run_gs` never forwards it. -/
structure GSConfig where
  estimator : Estimator
  param_grid : Option Grid
  scoring : Option Scoring
  n_jobs : Int
  cv : Option CVStrategy
  refit : Bool
  verbose : Int
  error_score : PyVal
  return_train_score : Bool
  x : PyVal
  y : PyVal
deriving DecidableEq

/-- The state of a `tuner` instance.  `Option` models Python `None` for the
configuration fields; for `class_weight` and the search-result fields it
models attribute *absence* (the constructor never assigns them, so reading
them before first assignment raises `AttributeError`). -/
structure Tuner where
  x : PyVal
  y : PyVal
  optimizer : Option Optimizer
  param_grid : Option Grid
  scoring : Option Scoring
  fit_params : Option PyVal
  n_jobs : Int
  refit : Bool
  verbose : Int
  error_score : PyVal
  return_train_score : Bool
  cv : Option CVStrategy
  n_splits : Int
  class_weight : Option PyVal
  cv_results : Option PyVal
  best_estimator : Option FittedModel
  best_score : Option PyVal
  best_params : Option Grid
  best_index : Option Int
  scorer : Option PyVal
  gs : Option GSResult
deriving DecidableEq

/-- The external grid-search engine: given the optimizer class and the full
configuration, it either raises or returns the fitted result object.  This
stands for `self.optimizer(estimator, ...)` followed by `gs.fit(x, y)`. -/
abbrev Engine := Optimizer → GSConfig → Except PyErr GSResult

/-- `tuner.__init__`: stores the constructor arguments on the instance.
`class_weight` and the search-result attributes are never assigned. -/
def init (x y : PyVal) (optimizer : Option Optimizer) (param_grid : Option Grid)
    (scoring : Option Scoring) (fit_params : Option PyVal) (n_jobs : Int)
    (refit : Bool) (verbose : Int) (error_score : PyVal)
    (return_train_score : Bool) (cv : Option CVStrategy) (n_splits : Int) :
    Tuner :=
  { x := x, y := y, optimizer := optimizer, param_grid := param_grid
  , scoring := scoring, fit_params := fit_params, n_jobs := n_jobs
  , refit := refit, verbose := verbose, error_score := error_score
  , return_train_score := return_train_score, cv := cv, n_splits := n_splits
  , class_weight := Option.none, cv_results := Option.none
  , best_estimator := Option.none, best_score := Option.none
  , best_params := Option.none, best_index := Option.none
  , scorer := Option.none, gs := Option.none }

/-- `tuner(x, y)` with every keyword left at its declared default
(`optimizer=GridSearchCV`, `param_grid=None`, `scoring=None`,
`fit_params=None`, `refit=True`, `verbose=1`, `error_score="raise"`,
`return_train_score=True`, `cv=None`, `n_splits=5`).  `n_jobs` defaults to
the host's cpu count, a runtime value, so it stays a parameter here. -/
def initDefault (x y : PyVal) (n_jobs : Int) : Tuner :=
  init x y (Option.some Optimizer.gridSearchCV) Option.none Option.none
    Option.none n_jobs true 1 (PyVal.str "raise") true Option.none 5

/-- The `if v is not None: self.f = v` pattern used for `optimizer` and
`fit_params' in every method: an explicit value replaces the stored one,
otherwise the stored one is kept. -/
def keepIfNone {α : Type} (new? : Option α) (cur : Option α) : Option α :=
  match new? with
  | Option.some v => Option.some v
  | Option.none => cur

/-- The merge block used for `param_grid`, `scoring` and `cv` in every
method except `SVC`: an explicit value is stored; otherwise a stored value
is kept; otherwise the family default is stored. -/
def mergeField {α : Type} (new? : Option α) (cur : Option α) (default : α) :
    Option α :=
  match new? with
  | Option.some v => Option.some v
  | Option.none =>
    match cur with
    | Option.some v => Option.some v
    | Option.none => Option.some default

/-- The `SVC` variant of the merge block: the conditionals only set the
*local* variable and the instance field is assigned unconditionally
afterwards, so when an explicit value is absent but a stored value exists,
the local (still `None`) overwrites the stored value. -/
def mergeFieldLate {α : Type} (new? : Option α) (cur : Option α)
    (default : α) : Option α :=
  match new? with
  | Option.some v => Option.some v
  | Option.none =>
    match cur with
    | Option.some _ => Option.none
    | Option.none => Option.some default

/-- Python dict item assignment `d[k] = v`: replace the value of the first
binding of `k` in place, else append a new binding. -/
def dictSet (g : Grid) (k : String) (v : PyVal) : Grid :=
  match g with
  | [] => [(k, v)]
  | (k', v') :: rest =>
    if k' = k then (k, v) :: rest else (k', v') :: dictSet rest k v

/-- The keyword arguments `run_gs` passes to `self.optimizer(...)` together
with the `fit` data. -/
def mkGSConfig (t : Tuner) (estimator : Estimator) : GSConfig :=
  { estimator := estimator, param_grid := t.param_grid, scoring := t.scoring
  , n_jobs := t.n_jobs, cv := t.cv, refit := t.refit, verbose := t.verbose
  , error_score := t.error_score, return_train_score := t.return_train_score
  , x := t.x, y := t.y }

/-- `tuner.run_gs`: construct the optimizer with the current configuration,
fit it, then copy its result fields onto the instance.  Calling a `None`
optimizer raises `TypeError`; an engine error propagates with the state
unchanged. -/
def run_gs (engine : Engine) (estimator : Estimator) (t : Tuner) :
    Tuner × Option PyErr :=
  match t.optimizer with
  | Option.none => (t, Option.some PyErr.typeError)
  | Option.some opt =>
    match engine opt (mkGSConfig t estimator) with
    | Except.error e => (t, Option.some e)
    | Except.ok res =>
      ({ t with cv_results := Option.some res.cv_results_
              , best_estimator := Option.some res.best_estimator_
              , best_score := Option.some res.best_score_
              , best_params := Option.some res.best_params_
              , best_index := Option.some res.best_index_
              , scorer := Option.some res.scorer_
              , n_splits := res.n_splits_
              , gs := Option.some res }, Option.none)

/-- Default grid of `tuner.LinearRegression`. -/
def linearRegressionGrid : Grid :=
  [ ("normalize", PyVal.tup [PyVal.bool true, PyVal.bool false])
  , ("fit_intercept", PyVal.tup [PyVal.bool true, PyVal.bool false]) ]

/-- Default grid of `tuner.LogisticRegression`. -/
def logisticRegressionGrid : Grid :=
  [ ("C", PyVal.tup [PyVal.float (1/100), PyVal.float (1/10), PyVal.float 1,
      PyVal.float 10])
  , ("tol", PyVal.tup [PyVal.float (1/1000), PyVal.float (1/10000),
      PyVal.float (1/100000)])
  , ("fit_intercept", PyVal.tup [PyVal.bool true, PyVal.bool false]) ]

/-- Default grid of `tuner.DecisionTreeClassifier`. -/
def decisionTreeClassifierGrid : Grid :=
  [ ("criterion", PyVal.tup [PyVal.str "gini", PyVal.str "entropy"])
  , ("splitter", PyVal.tup [PyVal.str "best", PyVal.str "random"])
  , ("max_features", PyVal.tup [PyVal.str "sqrt", PyVal.str "log2",
      PyVal.none])
  , ("max_depth", PyVal.tup [PyVal.int 2, PyVal.int 5, PyVal.int 10,
      PyVal.none])
  , ("min_samples_split", PyVal.tup [PyVal.int 2, PyVal.float (1/100),
      PyVal.float (1/10)])
  , ("min_impurity_split", PyVal.tup [PyVal.float (1/10000000),
      PyVal.float (1/1000000)]) ]

/-- Default grid of `tuner.SVC`. -/
def svcGrid : Grid :=
  [ ("C", PyVal.tup [PyVal.float (1/1000), PyVal.float (1/100),
      PyVal.float (1/10), PyVal.float 1, PyVal.float 10])
  , ("kernel", PyVal.tup [PyVal.str "rbf", PyVal.str "linear"])
  , ("gamma", PyVal.tup [PyVal.float (1/1000), PyVal.float (1/10000),
      PyVal.float (1/100000), PyVal.float (1/1000000),
      PyVal.float (1/10000000)]) ]

/-- Default grid of `tuner.SVR` (note `1` in `epsilon` is an int literal). -/
def svrGrid : Grid :=
  [ ("C", PyVal.tup [PyVal.float (1/100), PyVal.float (1/10), PyVal.float 1,
      PyVal.float 10])
  , ("epsilon", PyVal.tup [PyVal.float (1/100), PyVal.float (1/10),
      PyVal.int 1])
  , ("kernel", PyVal.tup [PyVal.str "rbf", PyVal.str "linear",
      PyVal.str "poly", PyVal.str "sigmoid"])
  , ("gamma", PyVal.tup [PyVal.float (1/100), PyVal.float (1/1000),
      PyVal.float (1/10000)]) ]

/-- Default grid of `tuner.LinearSVC`. -/
def linearSVCGrid : Grid :=
  [ ("C", PyVal.tup [PyVal.float (1/100), PyVal.float (1/10), PyVal.float 1,
      PyVal.float 10])
  , ("loss", PyVal.tup [PyVal.str "hinge", PyVal.str "squared_hinge"])
  , ("tol", PyVal.tup [PyVal.float (1/1000), PyVal.float (1/10000),
      PyVal.float (1/100000)])
  , ("fit_intercept", PyVal.tup [PyVal.bool true, PyVal.bool false]) ]

/-- Default grid of `tuner.LinearSVR` (note `"dual": (False)` is the bare
boolean `False`, not a one-element tuple, and `0` in `epsilon` is an int). -/
def linearSVRGrid : Grid :=
  [ ("C", PyVal.tup [PyVal.float (1/100), PyVal.float (1/10), PyVal.float 1,
      PyVal.float 10])
  , ("loss", PyVal.tup [PyVal.str "epsilon_insensitive",
      PyVal.str "squared_epsilon_insensitive"])
  , ("epsilon", PyVal.tup [PyVal.int 0, PyVal.float (1/100),
      PyVal.float (1/10)])
  , ("dual", PyVal.bool false)
  , ("tol", PyVal.tup [PyVal.float (1/1000), PyVal.float (1/10000),
      PyVal.float (1/100000)])
  , ("fit_intercept", PyVal.tup [PyVal.bool true, PyVal.bool false]) ]

/-- Default grid of `tuner.AdaBoostClassifier`. -/
def adaBoostClassifierGrid : Grid :=
  [ ("n_estimators", PyVal.tup [PyVal.int 25, PyVal.int 50, PyVal.int 75,
      PyVal.int 100])
  , ("learning_rate", PyVal.tup [PyVal.float (1/10), PyVal.float (1/2),
      PyVal.float 1]) ]

/-- Default grid of `tuner.AdaBoostRegressor`. -/
def adaBoostRegressorGrid : Grid :=
  [ ("n_estimators", PyVal.tup [PyVal.int 25, PyVal.int 50, PyVal.int 75,
      PyVal.int 100])
  , ("learning_rate", PyVal.tup [PyVal.float (1/10), PyVal.float (1/2),
      PyVal.float 1])
  , ("loss", PyVal.tup [PyVal.str "linear", PyVal.str "exponential",
      PyVal.str "square"]) ]

/-- Default grid of `tuner.GradientBoostClassifier`. -/
def gradientBoostClassifierGrid : Grid :=
  [ ("n_estimators", PyVal.tup [PyVal.int 10, PyVal.int 100, PyVal.int 500])
  , ("learning_rate", PyVal.tup [PyVal.float (1/100), PyVal.float (1/10),
      PyVal.float (1/2)])
  , ("max_features", PyVal.tup [PyVal.str "sqrt", PyVal.str "log2",
      PyVal.none])
  , ("max_depth", PyVal.tup [PyVal.int 1, PyVal.int 10, PyVal.none])
  , ("min_samples_split", PyVal.tup [PyVal.int 2, PyVal.float (1/100),
      PyVal.float (1/10)]) ]

/-- Default grid of `tuner.GradientBoostRegressor` (same literals as the
classifier variant). -/
def gradientBoostRegressorGrid : Grid :=
  [ ("n_estimators", PyVal.tup [PyVal.int 10, PyVal.int 100, PyVal.int 500])
  , ("learning_rate", PyVal.tup [PyVal.float (1/100), PyVal.float (1/10),
      PyVal.float (1/2)])
  , ("max_features", PyVal.tup [PyVal.str "sqrt", PyVal.str "log2",
      PyVal.none])
  , ("max_depth", PyVal.tup [PyVal.int 1, PyVal.int 10, PyVal.none])
  , ("min_samples_split", PyVal.tup [PyVal.int 2, PyVal.float (1/100),
      PyVal.float (1/10)]) ]

/-- Default grid of `tuner.RandomForestClassifier`. -/
def randomForestClassifierGrid : Grid :=
  [ ("criterion", PyVal.tup [PyVal.str "gini", PyVal.str "entropy"])
  , ("n_estimators", PyVal.tup [PyVal.int 10, PyVal.int 100, PyVal.int 500])
  , ("max_features", PyVal.tup [PyVal.str "sqrt", PyVal.str "log2",
      PyVal.none])
  , ("max_depth", PyVal.tup [PyVal.int 1, PyVal.int 10, PyVal.none])
  , ("min_samples_split", PyVal.tup [PyVal.int 2, PyVal.float (1/100),
      PyVal.float (1/10)]) ]

/-- Default grid of `tuner.RandomForestRegressor`. -/
def randomForestRegressorGrid : Grid :=
  [ ("n_estimators", PyVal.tup [PyVal.int 10, PyVal.int 100, PyVal.int 500])
  , ("max_features", PyVal.tup [PyVal.str "sqrt", PyVal.str "log2",
      PyVal.none])
  , ("max_depth", PyVal.tup [PyVal.int 1, PyVal.int 10, PyVal.none])
  , ("min_samples_split", PyVal.tup [PyVal.int 2, PyVal.float (1/100),
      PyVal.float (1/10)]) ]

/-- `tuner.LinearRegression`. -/
def LinearRegression (engine : Engine) (optimizer? : Option Optimizer)
    (param_grid? : Option Grid) (scoring? : Option Scoring)
    (fit_params? : Option PyVal) (cv? : Option CVStrategy) (t : Tuner) :
    Tuner × Option PyErr :=
  let t1 := { t with optimizer := keepIfNone optimizer? t.optimizer }
  let t2 := { t1 with
    param_grid := mergeField param_grid? t1.param_grid linearRegressionGrid }
  let t3 := { t2 with
    scoring := mergeField scoring? t2.scoring (Scoring.callable "explained_variance_score") }
  let t4 := { t3 with fit_params := keepIfNone fit_params? t3.fit_params }
  let t5 := { t4 with
    cv := mergeField cv? t4.cv (CVStrategy.stratifiedKFold t4.n_splits) }
  run_gs engine { family := Family.linearRegression, ctorArgs := [] } t5

/-- `tuner.LogisticRegression`. -/
def LogisticRegression (engine : Engine) (optimizer? : Option Optimizer)
    (param_grid? : Option Grid) (scoring? : Option Scoring)
    (fit_params? : Option PyVal) (cv? : Option CVStrategy) (t : Tuner) :
    Tuner × Option PyErr :=
  let t1 := { t with optimizer := keepIfNone optimizer? t.optimizer }
  let t2 := { t1 with
    param_grid := mergeField param_grid? t1.param_grid logisticRegressionGrid }
  let t3 := { t2 with
    scoring := mergeField scoring? t2.scoring (Scoring.named "roc_auc") }
  let t4 := { t3 with fit_params := keepIfNone fit_params? t3.fit_params }
  let t5 := { t4 with
    cv := mergeField cv? t4.cv (CVStrategy.stratifiedKFold t4.n_splits) }
  run_gs engine { family := Family.logisticRegression, ctorArgs := [] } t5

/-- `tuner.DecisionTreeClassifier`. -/
def DecisionTreeClassifier (engine : Engine) (optimizer? : Option Optimizer)
    (param_grid? : Option Grid) (scoring? : Option Scoring)
    (fit_params? : Option PyVal) (cv? : Option CVStrategy) (t : Tuner) :
    Tuner × Option PyErr :=
  let t1 := { t with optimizer := keepIfNone optimizer? t.optimizer }
  let t2 := { t1 with
    param_grid := mergeField param_grid? t1.param_grid decisionTreeClassifierGrid }
  let t3 := { t2 with
    scoring := mergeField scoring? t2.scoring (Scoring.named "neg_log_loss") }
  let t4 := { t3 with fit_params := keepIfNone fit_params? t3.fit_params }
  let t5 := { t4 with
    cv := mergeField cv? t4.cv (CVStrategy.stratifiedKFold t4.n_splits) }
  run_gs engine { family := Family.decisionTreeClassifier, ctorArgs := [] } t5

/-- `tuner.SVC`.  Unlike the other methods its merge conditionals only set
local variables and the fields are assigned unconditionally afterwards
(`mergeFieldLate`); then it reads `self.class_weight` when the argument is
non-`None` (`AttributeError` if the attribute was never assigned) and writes
`self.param_grid["class_weight"]` (`TypeError` when the grid is `None`). -/
def SVC (engine : Engine) (optimizer? : Option Optimizer)
    (param_grid? : Option Grid) (scoring? : Option Scoring)
    (fit_params? : Option PyVal) (cv? : Option CVStrategy)
    (class_weight : PyVal) (t : Tuner) : Tuner × Option PyErr :=
  let t1 := { t with optimizer := keepIfNone optimizer? t.optimizer }
  let t2 := { t1 with
    param_grid := mergeFieldLate param_grid? t1.param_grid svcGrid }
  let t3 := { t2 with
    scoring := mergeFieldLate scoring? t2.scoring (Scoring.named "neg_log_loss") }
  let t4 := { t3 with fit_params := keepIfNone fit_params? t3.fit_params }
  let t5 := { t4 with
    cv := mergeFieldLate cv? t4.cv (CVStrategy.stratifiedKFold t4.n_splits) }
  match (if class_weight = PyVal.none then Except.ok class_weight
    else match t5.class_weight with
      | Option.none => Except.error PyErr.attributeError
      | Option.some cur =>
        Except.ok (if cur = PyVal.none then PyVal.str "balanced"
          else class_weight)) with
  | Except.error e => (t5, Option.some e)
  | Except.ok cw =>
    match t5.param_grid with
    | Option.none => (t5, Option.some PyErr.typeError)
    | Option.some g =>
      run_gs engine { family := Family.svc, ctorArgs := [] }
        { t5 with param_grid := Option.some (dictSet g "class_weight" cw) }

/-- `tuner.SVR`. -/
def SVR (engine : Engine) (optimizer? : Option Optimizer)
    (param_grid? : Option Grid) (scoring? : Option Scoring)
    (fit_params? : Option PyVal) (cv? : Option CVStrategy) (t : Tuner) :
    Tuner × Option PyErr :=
  let t1 := { t with optimizer := keepIfNone optimizer? t.optimizer }
  let t2 := { t1 with
    param_grid := mergeField param_grid? t1.param_grid svrGrid }
  let t3 := { t2 with
    scoring := mergeField scoring? t2.scoring (Scoring.callable "explained_variance_score") }
  let t4 := { t3 with fit_params := keepIfNone fit_params? t3.fit_params }
  let t5 := { t4 with
    cv := mergeField cv? t4.cv (CVStrategy.stratifiedKFold t4.n_splits) }
  run_gs engine { family := Family.svr, ctorArgs := [] } t5

/-- `tuner.LinearSVC`. -/
def LinearSVC (engine : Engine) (optimizer? : Option Optimizer)
    (param_grid? : Option Grid) (scoring? : Option Scoring)
    (fit_params? : Option PyVal) (cv? : Option CVStrategy) (t : Tuner) :
    Tuner × Option PyErr :=
  let t1 := { t with optimizer := keepIfNone optimizer? t.optimizer }
  let t2 := { t1 with
    param_grid := mergeField param_grid? t1.param_grid linearSVCGrid }
  let t3 := { t2 with
    scoring := mergeField scoring? t2.scoring (Scoring.named "neg_log_loss") }
  let t4 := { t3 with fit_params := keepIfNone fit_params? t3.fit_params }
  let t5 := { t4 with
    cv := mergeField cv? t4.cv (CVStrategy.stratifiedKFold t4.n_splits) }
  run_gs engine { family := Family.linearSVC, ctorArgs := [] } t5

/-- `tuner.LinearSVR`. -/
def LinearSVR (engine : Engine) (optimizer? : Option Optimizer)
    (param_grid? : Option Grid) (scoring? : Option Scoring)
    (fit_params? : Option PyVal) (cv? : Option CVStrategy) (t : Tuner) :
    Tuner × Option PyErr :=
  let t1 := { t with optimizer := keepIfNone optimizer? t.optimizer }
  let t2 := { t1 with
    param_grid := mergeField param_grid? t1.param_grid linearSVRGrid }
  let t3 := { t2 with
    scoring := mergeField scoring? t2.scoring (Scoring.callable "explained_variance_score") }
  let t4 := { t3 with fit_params := keepIfNone fit_params? t3.fit_params }
  let t5 := { t4 with
    cv := mergeField cv? t4.cv (CVStrategy.stratifiedKFold t4.n_splits) }
  run_gs engine { family := Family.linearSVR, ctorArgs := [] } t5

/-- `tuner.AdaBoostClassifier`. -/
def AdaBoostClassifier (engine : Engine) (optimizer? : Option Optimizer)
    (param_grid? : Option Grid) (scoring? : Option Scoring)
    (fit_params? : Option PyVal) (cv? : Option CVStrategy) (t : Tuner) :
    Tuner × Option PyErr :=
  let t1 := { t with optimizer := keepIfNone optimizer? t.optimizer }
  let t2 := { t1 with
    param_grid := mergeField param_grid? t1.param_grid adaBoostClassifierGrid }
  let t3 := { t2 with
    scoring := mergeField scoring? t2.scoring (Scoring.named "neg_log_loss") }
  let t4 := { t3 with fit_params := keepIfNone fit_params? t3.fit_params }
  let t5 := { t4 with
    cv := mergeField cv? t4.cv (CVStrategy.stratifiedKFold t4.n_splits) }
  run_gs engine { family := Family.adaBoostClassifier, ctorArgs := [] } t5

/-- `tuner.AdaBoostRegressor`. -/
def AdaBoostRegressor (engine : Engine) (optimizer? : Option Optimizer)
    (param_grid? : Option Grid) (scoring? : Option Scoring)
    (fit_params? : Option PyVal) (cv? : Option CVStrategy) (t : Tuner) :
    Tuner × Option PyErr :=
  let t1 := { t with optimizer := keepIfNone optimizer? t.optimizer }
  let t2 := { t1 with
    param_grid := mergeField param_grid? t1.param_grid adaBoostRegressorGrid }
  let t3 := { t2 with
    scoring := mergeField scoring? t2.scoring (Scoring.callable "explained_variance_score") }
  let t4 := { t3 with fit_params := keepIfNone fit_params? t3.fit_params }
  let t5 := { t4 with
    cv := mergeField cv? t4.cv (CVStrategy.stratifiedKFold t4.n_splits) }
  run_gs engine { family := Family.adaBoostRegressor, ctorArgs := [] } t5

/-- `tuner.GradientBoostClassifier`. -/
def GradientBoostClassifier (engine : Engine) (optimizer? : Option Optimizer)
    (param_grid? : Option Grid) (scoring? : Option Scoring)
    (fit_params? : Option PyVal) (cv? : Option CVStrategy) (t : Tuner) :
    Tuner × Option PyErr :=
  let t1 := { t with optimizer := keepIfNone optimizer? t.optimizer }
  let t2 := { t1 with
    param_grid := mergeField param_grid? t1.param_grid gradientBoostClassifierGrid }
  let t3 := { t2 with
    scoring := mergeField scoring? t2.scoring (Scoring.named "neg_log_loss") }
  let t4 := { t3 with fit_params := keepIfNone fit_params? t3.fit_params }
  let t5 := { t4 with
    cv := mergeField cv? t4.cv (CVStrategy.stratifiedKFold t4.n_splits) }
  run_gs engine
    { family := Family.gradientBoostingClassifier, ctorArgs := [] } t5

/-- `tuner.GradientBoostRegressor` (its cv default is a plain `KFold`). -/
def GradientBoostRegressor (engine : Engine) (optimizer? : Option Optimizer)
    (param_grid? : Option Grid) (scoring? : Option Scoring)
    (fit_params? : Option PyVal) (cv? : Option CVStrategy) (t : Tuner) :
    Tuner × Option PyErr :=
  let t1 := { t with optimizer := keepIfNone optimizer? t.optimizer }
  let t2 := { t1 with
    param_grid := mergeField param_grid? t1.param_grid gradientBoostRegressorGrid }
  let t3 := { t2 with
    scoring := mergeField scoring? t2.scoring (Scoring.named "neg_mean_absolute_error") }
  let t4 := { t3 with fit_params := keepIfNone fit_params? t3.fit_params }
  let t5 := { t4 with
    cv := mergeField cv? t4.cv (CVStrategy.kFold t4.n_splits) }
  run_gs engine
    { family := Family.gradientBoostingRegressor, ctorArgs := [] } t5

/-- `tuner.RandomForestClassifier` (the only method that forwards an
argument, `class_weight`, to the estimator constructor). -/
def RandomForestClassifier (engine : Engine) (optimizer? : Option Optimizer)
    (param_grid? : Option Grid) (scoring? : Option Scoring)
    (fit_params? : Option PyVal) (cv? : Option CVStrategy)
    (class_weight : PyVal) (t : Tuner) : Tuner × Option PyErr :=
  let t1 := { t with optimizer := keepIfNone optimizer? t.optimizer }
  let t2 := { t1 with
    param_grid := mergeField param_grid? t1.param_grid randomForestClassifierGrid }
  let t3 := { t2 with
    scoring := mergeField scoring? t2.scoring (Scoring.named "neg_log_loss") }
  let t4 := { t3 with fit_params := keepIfNone fit_params? t3.fit_params }
  let t5 := { t4 with
    cv := mergeField cv? t4.cv (CVStrategy.stratifiedKFold t4.n_splits) }
  run_gs engine
    { family := Family.randomForestClassifier,
      ctorArgs := [("class_weight", class_weight)] } t5

/-- `tuner.RandomForestRegressor` (its cv default is a plain `KFold`). -/
def RandomForestRegressor (engine : Engine) (optimizer? : Option Optimizer)
    (param_grid? : Option Grid) (scoring? : Option Scoring)
    (fit_params? : Option PyVal) (cv? : Option CVStrategy) (t : Tuner) :
    Tuner × Option PyErr :=
  let t1 := { t with optimizer := keepIfNone optimizer? t.optimizer }
  let t2 := { t1 with
    param_grid := mergeField param_grid? t1.param_grid randomForestRegressorGrid }
  let t3 := { t2 with
    scoring := mergeField scoring? t2.scoring (Scoring.named "neg_mean_absolute_error") }
  let t4 := { t3 with fit_params := keepIfNone fit_params? t3.fit_params }
  let t5 := { t4 with
    cv := mergeField cv? t4.cv (CVStrategy.kFold t4.n_splits) }
  run_gs engine { family := Family.randomForestRegressor, ctorArgs := [] } t5

/-- An engine modelling a `GridSearchCV` run that completes with
`refit=True`: `best_estimator_` is a fitted clone of the estimator handed
in, and the realized split count is the one sklearn reports. -/
def engineRefit : Engine := fun _ cfg =>
  Except.ok
    { cv_results_ := PyVal.str "cv_results"
    , best_estimator_ := { estimator := cfg.estimator, fitted := true }
    , best_score_ := PyVal.float (9/10)
    , best_params_ := []
    , best_index_ := 0
    , scorer_ := PyVal.str "scorer"
    , n_splits_ := 5 }

/-- An engine whose fit step always raises. -/
def engineFail : Engine := fun _ _ =>
  Except.error (PyErr.raised "per-candidate fit failure")

/-- A freshly constructed tuner over a small concrete dataset. -/
def tFresh : Tuner := initDefault (PyVal.str "x-data") (PyVal.str "y-data") 2

/-- A tuner on which a grid, a scoring metric and a cv splitter have
already been persisted. -/
def tPersisted : Tuner :=
  { tFresh with
    param_grid := Option.some [("C", PyVal.tup [PyVal.float 1, PyVal.float 10])]
  , scoring := Option.some (Scoring.named "accuracy")
  , cv := Option.some (CVStrategy.kFold 3) }

/-- A persisted grid handed explicitly to `SVC` in the two-call scenario. -/
def c2Grid : Grid := [("C", PyVal.tup [PyVal.float 1])]

/-- A tuner whose persisted grid lacks a `class_weight` key. -/
def c10Tuner : Tuner :=
  { tFresh with
    param_grid := Option.some [("kernel", PyVal.tup [PyVal.str "rbf"])] }

/-- The result fields of a previously completed search. -/
def gsPrior : GSResult :=
  { cv_results_ := PyVal.str "prior-cv-results"
  , best_estimator_ :=
      { estimator := { family := Family.linearSVC, ctorArgs := [] }
      , fitted := true }
  , best_score_ := PyVal.float (1/2)
  , best_params_ := [("C", PyVal.float 1)]
  , best_index_ := 1
  , scorer_ := PyVal.str "prior-scorer"
  , n_splits_ := 4 }

/-- A tuner that already holds the results of a completed search. -/
def tWithResults : Tuner :=
  { tFresh with
    cv_results := Option.some gsPrior.cv_results_
  , best_estimator := Option.some gsPrior.best_estimator_
  , best_score := Option.some gsPrior.best_score_
  , best_params := Option.some gsPrior.best_params_
  , best_index := Option.some gsPrior.best_index_
  , scorer := Option.some gsPrior.scorer_
  , n_splits := gsPrior.n_splits_
  , gs := Option.some gsPrior }

/-- A concrete estimator value used to exercise `run_gs` directly. -/
def estProbe : Estimator := { family := Family.linearSVC, ctorArgs := [] }

/-- A fitted model over an estimator of family `fam` constructed with the
given constructor arguments (empty = library defaults only). -/
def fittedWith (fam : Family) (args : List (String × PyVal)) : FittedModel :=
  { estimator := { family := fam, ctorArgs := args }, fitted := true }

/-! ### Structural lemmas about the search executor -/

/-- `run_gs` never changes the persisted `param_grid`. -/
theorem run_gs_param_grid (engine : Engine) (est : Estimator) (t : Tuner) :
    ((run_gs engine est t).1).param_grid = t.param_grid := by
  cases hopt : t.optimizer with
  | none => simp [run_gs, hopt]
  | some opt =>
    cases hrun : engine opt (mkGSConfig t est) with
    | error e => simp [run_gs, hopt, hrun]
    | ok res => simp [run_gs, hopt, hrun]

/-- `run_gs` never changes the persisted `scoring`. -/
theorem run_gs_scoring (engine : Engine) (est : Estimator) (t : Tuner) :
    ((run_gs engine est t).1).scoring = t.scoring := by
  cases hopt : t.optimizer with
  | none => simp [run_gs, hopt]
  | some opt =>
    cases hrun : engine opt (mkGSConfig t est) with
    | error e => simp [run_gs, hopt, hrun]
    | ok res => simp [run_gs, hopt, hrun]

/-- `run_gs` never changes the persisted `cv`. -/
theorem run_gs_cv (engine : Engine) (est : Estimator) (t : Tuner) :
    ((run_gs engine est t).1).cv = t.cv := by
  cases hopt : t.optimizer with
  | none => simp [run_gs, hopt]
  | some opt =>
    cases hrun : engine opt (mkGSConfig t est) with
    | error e => simp [run_gs, hopt, hrun]
    | ok res => simp [run_gs, hopt, hrun]

/-- Looking up the key just written by `dictSet` yields the written value. -/
theorem dictSet_lookup (g : Grid) (k : String) (v : PyVal) :
    List.lookup k (dictSet g k v) = Option.some v := by
  induction g with
  | nil => simp [dictSet, List.lookup]
  | cons p rest ih =>
    obtain ⟨k', v'⟩ := p
    by_cases h : k' = k
    · subst h
      simp [dictSet, List.lookup]
    · have hbeq : (k == k') = false := beq_eq_false_iff_ne.mpr (Ne.symm h)
      simp [dictSet, h, List.lookup, hbeq, ih]

/-! ### Claims about the search executor -/

/-- C7: on successful completion `run_gs` copies exactly the optimizer's
result fields — `cv_results_`, `best_estimator_`, `best_score_`,
`best_params_`, `best_index_`, `scorer_`, the realized `n_splits_`
(overwriting the tuner's configured `n_splits`) and the optimizer object
itself — onto the corresponding tuner fields, overwriting any prior
search's results, and leaves every other field unchanged. -/
theorem C7_run_gs_copies_results (engine : Engine) (est : Estimator)
    (t : Tuner) (opt : Optimizer) (res : GSResult)
    (hopt : t.optimizer = Option.some opt)
    (hrun : engine opt (mkGSConfig t est) = Except.ok res) :
    run_gs engine est t =
      ({ t with
          cv_results := Option.some res.cv_results_
        , best_estimator := Option.some res.best_estimator_
        , best_score := Option.some res.best_score_
        , best_params := Option.some res.best_params_
        , best_index := Option.some res.best_index_
        , scorer := Option.some res.scorer_
        , n_splits := res.n_splits_
        , gs := Option.some res }, Option.none) := by
  simp [run_gs, hopt, hrun]

/-- Witness for C7 at a concrete engine and a tuner holding a prior
search's results: every result field is overwritten. -/
theorem C7_witness :
    run_gs engineRefit estProbe tWithResults =
      ({ tWithResults with
          cv_results := Option.some (PyVal.str "cv_results")
        , best_estimator :=
            Option.some { estimator := estProbe, fitted := true }
        , best_score := Option.some (PyVal.float (9/10))
        , best_params := Option.some []
        , best_index := Option.some 0
        , scorer := Option.some (PyVal.str "scorer")
        , n_splits := 5
        , gs := Option.some
            { cv_results_ := PyVal.str "cv_results"
            , best_estimator_ := { estimator := estProbe, fitted := true }
            , best_score_ := PyVal.float (9/10)
            , best_params_ := []
            , best_index_ := 0
            , scorer_ := PyVal.str "scorer"
            , n_splits_ := 5 } }, Option.none) :=
  C7_run_gs_copies_results engineRefit estProbe tWithResults
    Optimizer.gridSearchCV
    { cv_results_ := PyVal.str "cv_results"
    , best_estimator_ := { estimator := estProbe, fitted := true }
    , best_score_ := PyVal.float (9/10)
    , best_params_ := []
    , best_index_ := 0
    , scorer_ := PyVal.str "scorer"
    , n_splits_ := 5 } rfl rfl

/-- C8: when the external search raises, the error propagates unmodified
and the tuner is returned exactly as it was — no search-result field
(`cv_results`, `best_estimator`, `best_score`, `best_params`, `best_index`,
`scorer`, `n_splits`, `gs`) is updated, so a prior completed search's
results remain intact. -/
theorem C8_error_propagates (engine : Engine) (est : Estimator) (t : Tuner)
    (opt : Optimizer) (e : PyErr)
    (hopt : t.optimizer = Option.some opt)
    (hrun : engine opt (mkGSConfig t est) = Except.error e) :
    run_gs engine est t = (t, Option.some e) := by
  simp [run_gs, hopt, hrun]

/-- Witness for C8: a failing engine on a tuner holding prior results
leaves the tuner untouched and surfaces the engine's own error. -/
theorem C8_error_propagates_witness :
    run_gs engineFail estProbe tWithResults =
      (tWithResults, Option.some (PyErr.raised "per-candidate fit failure")) :=
  C8_error_propagates engineFail estProbe tWithResults
    Optimizer.gridSearchCV (PyErr.raised "per-candidate fit failure") rfl rfl

/-- C9: `run_gs` forwards `fit_params` neither to the optimizer's
constructor nor to its fit call: the configuration handed to the engine is
identical for two tuners differing only in `fit_params`, the raised error
(if any) is identical, and the resulting states differ only in that same
`fit_params` value. -/
theorem C9_fit_params_has_no_effect (engine : Engine) (est : Estimator)
    (t : Tuner) (fp : Option PyVal) :
    mkGSConfig { t with fit_params := fp } est = mkGSConfig t est
  ∧ (run_gs engine est { t with fit_params := fp }).2 =
      (run_gs engine est t).2
  ∧ (run_gs engine est { t with fit_params := fp }).1 =
      { (run_gs engine est t).1 with fit_params := fp } := by
  have hcfg : mkGSConfig { t with fit_params := fp } est = mkGSConfig t est :=
    rfl
  refine ⟨hcfg, ?_, ?_⟩ <;>
  · simp only [run_gs, hcfg]
    cases hopt : t.optimizer with
    | none => simp [hopt]
    | some opt =>
      cases hrun : engine opt (mkGSConfig t est) with
      | error e => simp [hopt, hrun]
      | ok res => simp [hopt, hrun]

/-! ### Claims about the configuration-merge protocol -/

/-- C1 (evaluated at the failing input): the merge contract — explicit
value stored, else persisted value kept, else family default stored — is
broken by `SVC`: called with no overrides on a tuner that already persists
a grid, a scoring metric and a cv splitter, it resets all three fields to
`None` instead of keeping them, and then raises `TypeError` writing the
`class_weight` entry into the now-`None` grid. -/
theorem C1_svc_discards_persisted_fields :
    SVC engineRefit Option.none Option.none Option.none Option.none
      Option.none PyVal.none tPersisted =
      ({ tPersisted with
          param_grid := Option.none
        , scoring := Option.none
        , cv := Option.none }, Option.some PyErr.typeError) := by
  rfl

/-- C2 (evaluated at the failing input): calling `SVC` with an explicit
`param_grid` persists that grid (plus the `class_weight` entry), but a
second `SVC` call with no overrides does not preserve it — the persisted
grid becomes `None` and the call raises `TypeError`. -/
theorem C2_svc_second_call_loses_grid :
    (let first := SVC engineRefit Option.none (Option.some c2Grid)
        Option.none Option.none Option.none PyVal.none tFresh
     let second := SVC engineRefit Option.none Option.none Option.none
        Option.none Option.none PyVal.none first.1
     first.2 = Option.none
     ∧ first.1.param_grid =
         Option.some (dictSet c2Grid "class_weight" PyVal.none)
     ∧ second.1.param_grid = Option.none
     ∧ second.2 = Option.some PyErr.typeError) := by
  exact ⟨rfl, rfl, rfl, rfl⟩

/-- C3 (counterexample): on a fresh tuner the regressor-family method
`LinearRegression`, with no `cv` passed and none persisted, persists a
*stratified* k-fold splitter — not the plain k-fold the claim states. -/
theorem C3_counterexample :
    ((LinearRegression engineRefit Option.none Option.none Option.none
        Option.none Option.none tFresh).1).cv =
      Option.some (CVStrategy.stratifiedKFold 5)
  ∧ ((LinearRegression engineRefit Option.none Option.none Option.none
        Option.none Option.none tFresh).1).cv ≠
      Option.some (CVStrategy.kFold 5) := by
  exact ⟨rfl, by decide⟩

/-- C3 (amended): when `cv` is not passed and none is persisted, every
classifier-family method persists `StratifiedKFold(n_splits)` — but so do
the regressor methods `LinearRegression`, `SVR`, `LinearSVR` and
`AdaBoostRegressor`; only `GradientBoostRegressor` and
`RandomForestRegressor` persist the plain `KFold(n_splits)`. -/
theorem C3_amended_cv_defaults (engine : Engine) (o? : Option Optimizer)
    (g? : Option Grid) (s? : Option Scoring) (f? : Option PyVal)
    (cw : PyVal) (t : Tuner) (h : t.cv = Option.none) :
    ((LinearRegression engine o? g? s? f? Option.none t).1).cv =
      Option.some (CVStrategy.stratifiedKFold t.n_splits)
  ∧ ((LogisticRegression engine o? g? s? f? Option.none t).1).cv =
      Option.some (CVStrategy.stratifiedKFold t.n_splits)
  ∧ ((DecisionTreeClassifier engine o? g? s? f? Option.none t).1).cv =
      Option.some (CVStrategy.stratifiedKFold t.n_splits)
  ∧ ((SVC engine o? g? s? f? Option.none cw t).1).cv =
      Option.some (CVStrategy.stratifiedKFold t.n_splits)
  ∧ ((SVR engine o? g? s? f? Option.none t).1).cv =
      Option.some (CVStrategy.stratifiedKFold t.n_splits)
  ∧ ((LinearSVC engine o? g? s? f? Option.none t).1).cv =
      Option.some (CVStrategy.stratifiedKFold t.n_splits)
  ∧ ((LinearSVR engine o? g? s? f? Option.none t).1).cv =
      Option.some (CVStrategy.stratifiedKFold t.n_splits)
  ∧ ((AdaBoostClassifier engine o? g? s? f? Option.none t).1).cv =
      Option.some (CVStrategy.stratifiedKFold t.n_splits)
  ∧ ((AdaBoostRegressor engine o? g? s? f? Option.none t).1).cv =
      Option.some (CVStrategy.stratifiedKFold t.n_splits)
  ∧ ((GradientBoostClassifier engine o? g? s? f? Option.none t).1).cv =
      Option.some (CVStrategy.stratifiedKFold t.n_splits)
  ∧ ((GradientBoostRegressor engine o? g? s? f? Option.none t).1).cv =
      Option.some (CVStrategy.kFold t.n_splits)
  ∧ ((RandomForestClassifier engine o? g? s? f? Option.none cw t).1).cv =
      Option.some (CVStrategy.stratifiedKFold t.n_splits)
  ∧ ((RandomForestRegressor engine o? g? s? f? Option.none t).1).cv =
      Option.some (CVStrategy.kFold t.n_splits) := by
  refine ⟨?_, ?_, ?_, ?_, ?_, ?_, ?_, ?_, ?_, ?_, ?_, ?_, ?_⟩
  · simp [LinearRegression, run_gs_cv, mergeField, h]
  · simp [LogisticRegression, run_gs_cv, mergeField, h]
  · simp [DecisionTreeClassifier, run_gs_cv, mergeField, h]
  · simp only [SVC]
    split
    · simp [mergeFieldLate, h]
    · split
      · simp [mergeFieldLate, h]
      · simp [run_gs_cv, mergeFieldLate, h]
  · simp [SVR, run_gs_cv, mergeField, h]
  · simp [LinearSVC, run_gs_cv, mergeField, h]
  · simp [LinearSVR, run_gs_cv, mergeField, h]
  · simp [AdaBoostClassifier, run_gs_cv, mergeField, h]
  · simp [AdaBoostRegressor, run_gs_cv, mergeField, h]
  · simp [GradientBoostClassifier, run_gs_cv, mergeField, h]
  · simp [GradientBoostRegressor, run_gs_cv, mergeField, h]
  · simp [RandomForestClassifier, run_gs_cv, mergeField, h]
  · simp [RandomForestRegressor, run_gs_cv, mergeField, h]

/-- Witness for C3 (amended) at a fresh tuner: `RandomForestRegressor`
persists the plain k-fold splitter with the configured 5 splits. -/
theorem C3_amended_cv_defaults_witness :
    ((RandomForestRegressor engineRefit Option.none Option.none Option.none
        Option.none Option.none tFresh).1).cv =
      Option.some (CVStrategy.kFold 5) :=
  (C3_amended_cv_defaults engineRefit Option.none Option.none Option.none
    Option.none PyVal.none tFresh rfl).2.2.2.2.2.2.2.2.2.2.2.2

/-- For an engine that refits the estimator it was handed (as
`GridSearchCV` does when `refit=True`), a successful `run_gs` stores that
same estimator, fitted, in `best_estimator`. -/
theorem run_gs_success_best_estimator (engine : Engine) (est : Estimator)
    (t : Tuner)
    (hrefit : ∀ o cfg res, engine o cfg = Except.ok res →
      res.best_estimator_ = { estimator := cfg.estimator, fitted := true })
    (hsucc : (run_gs engine est t).2 = Option.none) :
    ((run_gs engine est t).1).best_estimator =
      Option.some { estimator := est, fitted := true } := by
  cases hopt : t.optimizer with
  | none => simp [run_gs, hopt] at hsucc
  | some opt =>
    cases hrun : engine opt (mkGSConfig t est) with
    | error e => simp [run_gs, hopt, hrun] at hsucc
    | ok res =>
      have hbe : res.best_estimator_ = { estimator := est, fitted := true } :=
        hrefit opt (mkGSConfig t est) res hrun
      simp [run_gs, hopt, hrun, hbe]

/-- C4 (counterexample): invoking `SVC` with the `class_weight` argument
omitted, on a fresh tuner whose `class_weight` attribute was never set,
completes without raising anything: the uninitialized field is not read on
this invocation. -/
theorem C4_counterexample :
    tFresh.class_weight = Option.none
  ∧ (SVC engineRefit Option.none Option.none Option.none Option.none
      Option.none PyVal.none tFresh).2 = Option.none := by
  exact ⟨rfl, rfl⟩

/-- C4 (amended): invoking `SVC` with an explicit (non-`None`)
`class_weight` argument reads the `class_weight` instance field — which
the constructor never initializes — and raises `AttributeError` whenever
that field has not been externally set, regardless of the other arguments
and of the engine. -/
theorem C4_amended_class_weight_read (engine : Engine)
    (o? : Option Optimizer) (g? : Option Grid) (s? : Option Scoring)
    (f? : Option PyVal) (c? : Option CVStrategy) (cwv : PyVal) (t : Tuner)
    (hcw : cwv ≠ PyVal.none) (hattr : t.class_weight = Option.none) :
    (SVC engine o? g? s? f? c? cwv t).2 =
      Option.some PyErr.attributeError := by
  simp [SVC, hcw, hattr]

/-- Witness for C4 (amended): a fresh tuner never had `class_weight`
assigned, so `SVC` with `class_weight="balanced"` raises
`AttributeError`. -/
theorem C4_amended_class_weight_read_witness :
    (SVC engineRefit Option.none Option.none Option.none Option.none
      Option.none (PyVal.str "balanced") tFresh).2 =
      Option.some PyErr.attributeError :=
  C4_amended_class_weight_read engineRefit Option.none Option.none
    Option.none Option.none Option.none (PyVal.str "balanced") tFresh
    (by decide) rfl

/-- C5 (counterexample): `RandomForestClassifier` does not construct its
estimator with only the library's constructor defaults — it forwards its
`class_weight` argument to the constructor, and the refitted
`best_estimator` exposes that pre-set constructor argument. -/
theorem C5_counterexample :
    ((RandomForestClassifier engineRefit Option.none Option.none Option.none
        Option.none Option.none (PyVal.str "balanced")
        tFresh).1).best_estimator =
      Option.some
        (fittedWith Family.randomForestClassifier
          [("class_weight", PyVal.str "balanced")])
  ∧ [("class_weight", PyVal.str "balanced")] ≠
      ([] : List (String × PyVal)) := by
  exact ⟨rfl, by decide⟩

/-- C5 (amended): for any engine that refits the estimator it is handed,
whenever a configuration method completes successfully the fitted model is
exactly one fresh estimator of that method's family constructed with no
constructor arguments — except `RandomForestClassifier`, whose estimator is
constructed with its `class_weight` argument pre-set. -/
theorem C5_amended_estimator_construction (engine : Engine)
    (o? : Option Optimizer) (g? : Option Grid) (s? : Option Scoring)
    (f? : Option PyVal) (c? : Option CVStrategy) (cw : PyVal) (t : Tuner)
    (hrefit : ∀ o cfg res, engine o cfg = Except.ok res →
      res.best_estimator_ = { estimator := cfg.estimator, fitted := true }) :
    ((LinearRegression engine o? g? s? f? c? t).2 = Option.none →
      ((LinearRegression engine o? g? s? f? c? t).1).best_estimator =
        Option.some (fittedWith Family.linearRegression []))
  ∧ ((LogisticRegression engine o? g? s? f? c? t).2 = Option.none →
      ((LogisticRegression engine o? g? s? f? c? t).1).best_estimator =
        Option.some (fittedWith Family.logisticRegression []))
  ∧ ((DecisionTreeClassifier engine o? g? s? f? c? t).2 = Option.none →
      ((DecisionTreeClassifier engine o? g? s? f? c? t).1).best_estimator =
        Option.some (fittedWith Family.decisionTreeClassifier []))
  ∧ ((SVC engine o? g? s? f? c? cw t).2 = Option.none →
      ((SVC engine o? g? s? f? c? cw t).1).best_estimator =
        Option.some (fittedWith Family.svc []))
  ∧ ((SVR engine o? g? s? f? c? t).2 = Option.none →
      ((SVR engine o? g? s? f? c? t).1).best_estimator =
        Option.some (fittedWith Family.svr []))
  ∧ ((LinearSVC engine o? g? s? f? c? t).2 = Option.none →
      ((LinearSVC engine o? g? s? f? c? t).1).best_estimator =
        Option.some (fittedWith Family.linearSVC []))
  ∧ ((LinearSVR engine o? g? s? f? c? t).2 = Option.none →
      ((LinearSVR engine o? g? s? f? c? t).1).best_estimator =
        Option.some (fittedWith Family.linearSVR []))
  ∧ ((AdaBoostClassifier engine o? g? s? f? c? t).2 = Option.none →
      ((AdaBoostClassifier engine o? g? s? f? c? t).1).best_estimator =
        Option.some (fittedWith Family.adaBoostClassifier []))
  ∧ ((AdaBoostRegressor engine o? g? s? f? c? t).2 = Option.none →
      ((AdaBoostRegressor engine o? g? s? f? c? t).1).best_estimator =
        Option.some (fittedWith Family.adaBoostRegressor []))
  ∧ ((GradientBoostClassifier engine o? g? s? f? c? t).2 = Option.none →
      ((GradientBoostClassifier engine o? g? s? f? c? t).1).best_estimator =
        Option.some (fittedWith Family.gradientBoostingClassifier []))
  ∧ ((GradientBoostRegressor engine o? g? s? f? c? t).2 = Option.none →
      ((GradientBoostRegressor engine o? g? s? f? c? t).1).best_estimator =
        Option.some (fittedWith Family.gradientBoostingRegressor []))
  ∧ ((RandomForestClassifier engine o? g? s? f? c? cw t).2 = Option.none →
      ((RandomForestClassifier engine o? g? s? f? c? cw t).1).best_estimator
        = Option.some
            (fittedWith Family.randomForestClassifier [("class_weight", cw)]))
  ∧ ((RandomForestRegressor engine o? g? s? f? c? t).2 = Option.none →
      ((RandomForestRegressor engine o? g? s? f? c? t).1).best_estimator =
        Option.some (fittedWith Family.randomForestRegressor [])) := by
  refine ⟨?_, ?_, ?_, ?_, ?_, ?_, ?_, ?_, ?_, ?_, ?_, ?_, ?_⟩
  · intro hs
    exact run_gs_success_best_estimator engine _ _ hrefit hs
  · intro hs
    exact run_gs_success_best_estimator engine _ _ hrefit hs
  · intro hs
    exact run_gs_success_best_estimator engine _ _ hrefit hs
  · intro hs
    by_cases hcw : cw = PyVal.none
    · cases hpg : mergeFieldLate g? t.param_grid svcGrid with
      | none => simp [SVC, hcw, hpg] at hs
      | some g =>
        simp only [SVC, hcw, hpg] at hs ⊢
        exact run_gs_success_best_estimator engine _ _ hrefit hs
    · cases hcl : t.class_weight with
      | none => simp [SVC, hcw, hcl] at hs
      | some cur =>
        cases hpg : mergeFieldLate g? t.param_grid svcGrid with
        | none => simp [SVC, hcw, hcl, hpg] at hs
        | some g =>
          simp only [SVC, hcw, hcl, hpg] at hs ⊢
          exact run_gs_success_best_estimator engine _ _ hrefit hs
  · intro hs
    exact run_gs_success_best_estimator engine _ _ hrefit hs
  · intro hs
    exact run_gs_success_best_estimator engine _ _ hrefit hs
  · intro hs
    exact run_gs_success_best_estimator engine _ _ hrefit hs
  · intro hs
    exact run_gs_success_best_estimator engine _ _ hrefit hs
  · intro hs
    exact run_gs_success_best_estimator engine _ _ hrefit hs
  · intro hs
    exact run_gs_success_best_estimator engine _ _ hrefit hs
  · intro hs
    exact run_gs_success_best_estimator engine _ _ hrefit hs
  · intro hs
    exact run_gs_success_best_estimator engine _ _ hrefit hs
  · intro hs
    exact run_gs_success_best_estimator engine _ _ hrefit hs

/-- Witness for C5 (amended): on a fresh tuner with the refitting engine,
`LinearRegression` succeeds and fits exactly a default-constructed
linear-regression estimator. -/
theorem C5_amended_estimator_construction_witness :
    ((LinearRegression engineRefit Option.none Option.none Option.none
        Option.none Option.none tFresh).1).best_estimator =
      Option.some (fittedWith Family.linearRegression []) :=
  (C5_amended_estimator_construction engineRefit Option.none Option.none
    Option.none Option.none Option.none PyVal.none tFresh
    (by intro o cfg res h; cases h; rfl)).1 rfl

/-- C6: on a fresh tuner (no grid, scoring or cv persisted), a successful
`LogisticRegression` call with no overrides persists `scoring = "roc_auc"`
and the default grid — whose keys include `C`, `tol` and `fit_intercept` —
and stores a fitted logistic-regression model in `best_estimator`. -/
theorem C6_logistic_regression_defaults (engine : Engine) (t : Tuner)
    (opt : Optimizer)
    (hg : t.param_grid = Option.none) (hsc : t.scoring = Option.none)
    (hc : t.cv = Option.none) (hopt : t.optimizer = Option.some opt)
    (hrefit : ∀ o cfg res, engine o cfg = Except.ok res →
      res.best_estimator_ = { estimator := cfg.estimator, fitted := true })
    (hok : (LogisticRegression engine Option.none Option.none Option.none
      Option.none Option.none t).2 = Option.none) :
    ((LogisticRegression engine Option.none Option.none Option.none
        Option.none Option.none t).1).scoring =
      Option.some (Scoring.named "roc_auc")
  ∧ ((LogisticRegression engine Option.none Option.none Option.none
        Option.none Option.none t).1).param_grid =
      Option.some logisticRegressionGrid
  ∧ (List.lookup "C" logisticRegressionGrid).isSome = true
  ∧ (List.lookup "tol" logisticRegressionGrid).isSome = true
  ∧ (List.lookup "fit_intercept" logisticRegressionGrid).isSome = true
  ∧ ((LogisticRegression engine Option.none Option.none Option.none
        Option.none Option.none t).1).best_estimator =
      Option.some (fittedWith Family.logisticRegression []) := by
  refine ⟨?_, ?_, by decide, by decide, by decide, ?_⟩
  · simp [LogisticRegression, run_gs_scoring, mergeField, hsc]
  · simp [LogisticRegression, run_gs_param_grid, mergeField, hg]
  · exact run_gs_success_best_estimator engine _ _ hrefit hok

/-- Witness for C6 on a fresh tuner with the refitting engine. -/
theorem C6_logistic_regression_defaults_witness :
    ((LogisticRegression engineRefit Option.none Option.none Option.none
        Option.none Option.none tFresh).1).scoring =
      Option.some (Scoring.named "roc_auc")
  ∧ ((LogisticRegression engineRefit Option.none Option.none Option.none
        Option.none Option.none tFresh).1).param_grid =
      Option.some logisticRegressionGrid
  ∧ (List.lookup "C" logisticRegressionGrid).isSome = true
  ∧ (List.lookup "tol" logisticRegressionGrid).isSome = true
  ∧ (List.lookup "fit_intercept" logisticRegressionGrid).isSome = true
  ∧ ((LogisticRegression engineRefit Option.none Option.none Option.none
        Option.none Option.none tFresh).1).best_estimator =
      Option.some (fittedWith Family.logisticRegression []) :=
  C6_logistic_regression_defaults engineRefit tFresh Optimizer.gridSearchCV
    rfl rfl rfl rfl (by intro o cfg res h; cases h; rfl) rfl

/-- C10 (counterexample): `SVC` called with `class_weight` omitted on a
tuner whose persisted grid lacks a `class_weight` key does *not* end with
a grid containing `class_weight ↦ None` — the grid has been reset to
`None` and the call raises `TypeError`. -/
theorem C10_counterexample :
    ((SVC engineRefit Option.none Option.none Option.none Option.none
        Option.none PyVal.none c10Tuner).1).param_grid = Option.none
  ∧ (SVC engineRefit Option.none Option.none Option.none Option.none
        Option.none PyVal.none c10Tuner).2 =
      Option.some PyErr.typeError := by
  exact ⟨rfl, rfl⟩

/-- C10 (amended): when the caller supplies an explicit `param_grid` and
omits `class_weight`, `SVC` mutates that grid in place, so the persisted
grid afterwards binds `class_weight` to `None` — whether or not the
supplied grid contained that key. -/
theorem C10_amended_class_weight_write (engine : Engine)
    (o? : Option Optimizer) (s? : Option Scoring) (f? : Option PyVal)
    (c? : Option CVStrategy) (g : Grid) (t : Tuner) :
    ((SVC engine o? (Option.some g) s? f? c? PyVal.none t).1).param_grid =
      Option.some (dictSet g "class_weight" PyVal.none)
  ∧ List.lookup "class_weight" (dictSet g "class_weight" PyVal.none) =
      Option.some PyVal.none := by
  refine ⟨?_, dictSet_lookup g "class_weight" PyVal.none⟩
  simp [SVC, run_gs_param_grid, mergeFieldLate]

end CcbML
